/-
Verification of the DPO helper module (`DPO/utils.py`).

The module has two functions:
  * `create_dpo_datasets` loads a dataset (from disk or the hub), selects
    splits, and rewrites the `chosen`/`rejected` conversation fields of each
    row through the tokenizer's chat-template renderer;
  * `create_and_prepare_model_for_dpo` builds the quantization config, the
    model-load call, the optional LoRA config and the tokenizer, and resizes
    the token embeddings when a chat template is installed.

External library calls (chat-template rendering, dataset storage, model and
tokenizer construction) are modelled abstractly: a renderer is an arbitrary
function, and the model/tokenizer are records of the constructor arguments
the code passes plus the mutations (resize calls, chat-template assignment)
it performs.  Python exceptions are modelled with `Except`.
-/
import Mathlib

set_option linter.unusedVariables false

/-! ## Data model -/

/-- A chat message, as one element of a conversation list. -/
structure Message where
  role : String
  content : String
deriving DecidableEq, Repr

/-- The value held by the `chosen`/`rejected` column of a row: a conversation
(list of messages) as loaded, or a rendered string after preprocessing. -/
inductive ChatField where
  | conv : List Message → ChatField
  | text : String → ChatField
deriving DecidableEq, Repr

/-- One dataset row: the `chosen` and `rejected` columns plus all other
columns, which `preprocess` never touches. -/
structure Row where
  chosen : ChatField
  rejected : ChatField
  extra : List (String × String)
deriving DecidableEq, Repr

/-- A dataset split is a list of rows. -/
abbrev Dataset := List Row

/-- The object returned by `load_from_disk` / `load_dataset`: either a
`DatasetDict` with `train` and `test` splits, or a plain non-split dataset. -/
inductive Loaded where
  | dict : Dataset → Dataset → Loaded
  | plain : Dataset → Loaded
deriving DecidableEq, Repr

/-- A value stored under a key of the `raw_datasets` dictionary: a plain
dataset, a whole `DatasetDict` (stored by the `"none" in splits` branch), or
Python `None`. -/
inductive SplitVal where
  | ds : Dataset → SplitVal
  | dict : Dataset → Dataset → SplitVal
  | none : SplitVal
deriving DecidableEq, Repr

/-- The value of `data_args.splits`: the code only uses `in` (substring test
for a string, membership for a list) and `!=` against `"none"` on it. -/
inductive Splits where
  | str : String → Splits
  | list : List String → Splits
deriving DecidableEq, Repr

/-- Python exceptions raised by the embedded code. -/
inductive PyError where
  | valueError : Splits → PyError
  | keyError : String → PyError
  | attributeError : String → PyError
  | typeError : String → PyError
deriving DecidableEq, Repr

/-- The tokenizer as `create_dpo_datasets` sees it: an abstract
chat-template renderer (`apply_chat_template(..., tokenize=False)`). -/
structure Tokenizer where
  apply_chat_template : ChatField → String

/-- The fields of `data_args` that the two functions read. -/
structure DataArgs where
  dataset_name : String
  is_local_data : Bool
  splits : Splits
  apply_chat_template : String
  remove_system_message : Bool

/-- Python `x in data_args.splits`: substring test on a string, membership
on a list. -/
def Splits.mem (s : Splits) (x : String) : Bool :=
  match s with
  | .str t => decide (x.data <:+: t.data)
  | .list l => l.contains x

/-- Python `data_args.splits == t` for a string literal `t`: a list never
equals a string. -/
def Splits.eqStr (s : Splits) (t : String) : Bool :=
  match s with
  | .str u => u == t
  | .list _ => false

/-- Indexing the loaded object with a split name.  Indexing a plain
(non-split) dataset by a split name is modelled as a `KeyError` (our rows
have no `train`/`test` column). -/
def Loaded.getSplit : Loaded → String → Except PyError Dataset
  | .dict a _, "train" => .ok a
  | .dict _ b, "test" => .ok b
  | .dict _ _, k => .error (.keyError k)
  | .plain _, k => .error (.keyError k)

/-- The loaded object viewed as a `raw_datasets` entry (the assignment
`raw_datasets["train"] = dataset`). -/
def Loaded.toVal : Loaded → SplitVal
  | .plain d => .ds d
  | .dict a b => .dict a b

/-- Row-wise mapping of a loaded object (`DatasetDict.map` maps every
split). -/
def Loaded.mapRows (f : Row → Row) : Loaded → Loaded
  | .plain d => .plain (d.map f)
  | .dict a b => .dict (a.map f) (b.map f)

/-- `.map(fn, batched=False)` on a `raw_datasets` entry: a `DatasetDict`
maps every split; calling `.map` on `None` raises `AttributeError`. -/
def SplitVal.mapVal (f : Row → Row) : SplitVal → Except PyError SplitVal
  | .ds d => .ok (.ds (d.map f))
  | .dict a b => .ok (.dict (a.map f) (b.map f))
  | .none => .error (.attributeError "NoneType object has no attribute map")

/-- `len(...)` of a `raw_datasets` entry: row count for a dataset, number of
splits (2) for a `DatasetDict`, `TypeError` for `None`. -/
def SplitVal.lenVal : SplitVal → Except PyError Nat
  | .ds d => .ok d.length
  | .dict _ _ => .ok 2
  | .none => .error (.typeError "object of type NoneType has no len")

/-- The `raw_datasets` dictionary; a `Option.none` field means the key was
never assigned, so reading it raises `KeyError`. -/
structure RawDatasets where
  train : Option SplitVal
  test : Option SplitVal
deriving DecidableEq, Repr

/-- Read `raw_datasets["train"]`. -/
def RawDatasets.getTrain (rd : RawDatasets) : Except PyError SplitVal :=
  match rd.train with
  | some v => .ok v
  | Option.none => .error (.keyError "train")

/-- Read `raw_datasets["test"]`. -/
def RawDatasets.getTest (rd : RawDatasets) : Except PyError SplitVal :=
  match rd.test with
  | some v => .ok v
  | Option.none => .error (.keyError "test")

/-! ## `create_dpo_datasets` -/

/-- The system message constant inside `to_apply_chat_template`. -/
def system_message : String :=
  "<|im_start|>system\nYou are Qwen, created by Alibaba Cloud. You are a helpful assistant.<|im_end|>\n"

/-- The nested `to_apply_chat_template` helper: render through the chat
template, then optionally strip the leading system message. -/
def to_apply_chat_template (messages : ChatField) (tokenizer : Tokenizer)
    (remove_system_message : Bool) : String :=
  let text := tokenizer.apply_chat_template messages
  if remove_system_message then
    if text.startsWith system_message then
      text.drop system_message.length
    else text
  else text

/-- The nested `preprocess` function: rewrite `chosen` and `rejected`
through `to_apply_chat_template`; `Dataset.map` merges the returned dict
into the row, so the other columns are kept. -/
def preprocess (tokenizer : Tokenizer) (remove_system_message : Bool)
    (row : Row) : Row :=
  { row with
    chosen := ChatField.text (to_apply_chat_template row.chosen tokenizer remove_system_message)
    rejected := ChatField.text (to_apply_chat_template row.rejected tokenizer remove_system_message) }

/-- Row `now` is row `orig` with its `chosen` and `rejected` conversations
rendered through the chat template (with the optional system strip). -/
def renderedRow (tokenizer : Tokenizer) (remove_system_message : Bool)
    (orig now : Row) : Prop :=
  now.chosen = ChatField.text (to_apply_chat_template orig.chosen tokenizer remove_system_message)
  ∧ now.rejected
      = ChatField.text (to_apply_chat_template orig.rejected tokenizer remove_system_message)

/-- Split `now` is split `orig` rendered row by row. -/
def renderedDataset (tokenizer : Tokenizer) (remove_system_message : Bool)
    (orig now : Dataset) : Prop :=
  now.length = orig.length
  ∧ ∀ i : Nat, ∀ h1 : i < orig.length, ∀ h2 : i < now.length,
      renderedRow tokenizer remove_system_message (orig.get ⟨i, h1⟩) (now.get ⟨i, h2⟩)

/-- A `raw_datasets` entry rendered split by split. -/
def renderedVal (tokenizer : Tokenizer) (remove_system_message : Bool) :
    SplitVal → SplitVal → Prop
  | SplitVal.ds d, SplitVal.ds d2 => renderedDataset tokenizer remove_system_message d d2
  | SplitVal.dict a b, SplitVal.dict a2 b2 =>
      renderedDataset tokenizer remove_system_message a a2
      ∧ renderedDataset tokenizer remove_system_message b b2
  | SplitVal.none, SplitVal.none => True
  | _, _ => False

/-- The split-selection block: the three membership `if`s followed by the
`ValueError` raise. -/
def selectSplits (dataset : Loaded) (s : Splits) : Except PyError RawDatasets :=
  (if s.mem "train" then
      (dataset.getSplit "train").map fun d =>
        { train := some (SplitVal.ds d), test := Option.none }
    else .ok { train := Option.none, test := Option.none }).bind fun rd1 =>
  (if s.mem "test" then
      (dataset.getSplit "test").map fun d => { rd1 with test := some (SplitVal.ds d) }
    else .ok rd1).bind fun rd2 =>
  let rd3 := if s.mem "none" then
      { train := some dataset.toVal, test := some SplitVal.none }
    else rd2
  if !s.mem "train" && !s.mem "test" && !s.mem "none" then
    .error (.valueError s)
  else .ok rd3

/-- The `map`-preprocessing block, guarded by
`data_args.apply_chat_template != "none"`; the test split is only mapped
when `data_args.splits != "none"`. -/
def mapStage (tokenizer : Tokenizer) (remove_system_message : Bool)
    (apply_chat_template : String) (s : Splits) (rd : RawDatasets) :
    Except PyError RawDatasets :=
  if apply_chat_template != "none" then
    (rd.getTrain.bind fun tr =>
      tr.mapVal (preprocess tokenizer remove_system_message)).bind fun tr2 =>
    let rd1 := { rd with train := some tr2 }
    if !s.eqStr "none" then
      (rd1.getTest.bind fun te =>
        te.mapVal (preprocess tokenizer remove_system_message)).map fun te2 =>
      { rd1 with test := some te2 }
    else .ok rd1
  else .ok rd

/-- The size prints: `len(...)` is evaluated (and can raise) even though the
printed text itself is I/O we ignore. -/
def printStage (s : Splits) (rd : RawDatasets) : Except PyError Unit :=
  (rd.getTrain.bind SplitVal.lenVal).bind fun _ =>
  if !s.eqStr "none" then
    (rd.getTest.bind SplitVal.lenVal).map fun _ => ()
  else .ok ()

/-- The final `return raw_datasets["train"], raw_datasets["test"]`. -/
def returnStage (rd : RawDatasets) : Except PyError (SplitVal × SplitVal) :=
  rd.getTrain.bind fun tr => rd.getTest.map fun te => (tr, te)

/-- The body of `create_dpo_datasets` after loading: select splits, map the
chat template, print sizes, return the two splits. -/
def dpoPipeline (dataset : Loaded) (tokenizer : Tokenizer) (data_args : DataArgs) :
    Except PyError (SplitVal × SplitVal) :=
  (selectSplits dataset data_args.splits).bind fun rd =>
  (mapStage tokenizer data_args.remove_system_message data_args.apply_chat_template
      data_args.splits rd).bind fun rd2 =>
  (printStage data_args.splits rd2).bind fun _ =>
  returnStage rd2

/-- `create_dpo_datasets`: choose the loader, load, then run the pipeline.
The loaders (`load_from_disk` and `load_dataset`) are abstract parameters. -/
def create_dpo_datasets (load_from_disk load_dataset : String → Loaded)
    (tokenizer : Tokenizer) (data_args : DataArgs) :
    Except PyError (SplitVal × SplitVal) :=
  let load_dataset_func := if data_args.is_local_data then load_from_disk else load_dataset
  let dataset := load_dataset_func data_args.dataset_name
  dpoPipeline dataset tokenizer data_args

/-! ## `create_and_prepare_model_for_dpo`: data model -/

/-- The `torch` dtypes the module can name through `getattr(torch, ...)`. -/
inductive TorchDtype where
  | float16 | bfloat16 | float32 | float64 | uint8 | int8
deriving DecidableEq, Repr

/-- `torch.dtype.is_floating_point`. -/
def TorchDtype.is_floating_point : TorchDtype → Bool
  | .float16 | .bfloat16 | .float32 | .float64 => true
  | .uint8 | .int8 => false

/-- `getattr(torch, name)` for dtype names; an unknown attribute raises
`AttributeError`. -/
def torchGetattr (name : String) : Except PyError TorchDtype :=
  match name with
  | "float16" => .ok .float16
  | "bfloat16" => .ok .bfloat16
  | "float32" => .ok .float32
  | "float64" => .ok .float64
  | "uint8" => .ok .uint8
  | "int8" => .ok .int8
  | _ => .error (.attributeError name)

/-- `BitsAndBytesConfig` as a record of constructor arguments; unset fields
keep the library defaults. -/
structure BitsAndBytesConfig where
  load_in_4bit : Bool := false
  load_in_8bit : Bool := false
  bnb_4bit_quant_type : String := "fp4"
  bnb_4bit_compute_dtype : TorchDtype := .float32
  bnb_4bit_use_double_quant : Bool := false
  bnb_4bit_quant_storage : TorchDtype := .uint8
deriving DecidableEq, Repr

/-- The arguments of `AutoModelForCausalLM.from_pretrained`. -/
structure ModelLoadCall where
  model_name_or_path : String
  quantization_config : Option BitsAndBytesConfig
  attn_implementation : String
  torch_dtype : TorchDtype
deriving DecidableEq, Repr

/-- One `model.resize_token_embeddings` call; `mean_resizing = Option.none`
means the keyword was not passed. -/
structure ResizeCall where
  new_num_tokens : Nat
  pad_to_multiple_of : Nat
  mean_resizing : Option Bool
deriving DecidableEq, Repr

/-- The model: the load call that produced it plus the resize calls
performed on it, in order. -/
structure Model where
  load : ModelLoadCall
  resizes : List ResizeCall
deriving DecidableEq, Repr

/-- `target_modules` of `LoraConfig`: a list after `.split(",")`, or the
unsplit `"all-linear"` string. -/
inductive TargetModules where
  | list : List String → TargetModules
  | str : String → TargetModules
deriving DecidableEq, Repr

/-- `LoraConfig` as a record of constructor arguments. -/
structure LoraConfig where
  lora_alpha : Nat
  lora_dropout : Rat
  r : Nat
  bias : String
  task_type : String
  target_modules : TargetModules
deriving DecidableEq, Repr

/-- The arguments of `AutoTokenizer.from_pretrained`; an outer
`Option.none` means the keyword was not passed. -/
structure TokenizerLoadCall where
  path : String
  pad_token : Option String
  bos_token : Option String
  eos_token : Option String
  additional_special_tokens : Option (List String)
deriving DecidableEq, Repr

/-- The tokenizer returned by `create_and_prepare_model_for_dpo`: the load
call plus its `chat_template` attribute (`Option.none` when the code never
overwrote what was loaded from the path). -/
structure TokenizerResult where
  load : TokenizerLoadCall
  chat_template : Option String
deriving DecidableEq, Repr

/-- The fields of the `args` object that the function reads. -/
structure ModelArgs where
  model_name_or_path : String
  use_4bit_quantization : Bool
  use_8bit_quantization : Bool
  bnb_4bit_quant_type : String
  bnb_4bit_compute_dtype : String
  bnb_4bit_quant_storage_dtype : String
  use_nested_quant : Bool
  use_flash_attn : Bool
  use_peft_lora : Bool
  lora_alpha : Nat
  lora_dropout : Rat
  lora_r : Nat
  lora_target_modules : String

/-- `TrainingArguments` is accepted but never read by the function. -/
structure TrainingArguments where
deriving DecidableEq, Repr

/-- The external state the function consults: the installed `transformers`
version (only through the `>= 4.46.0` comparison the code makes), the
`ACCELERATE_USE_FSDP` environment variable, and `len(tokenizer)` as a
function of the tokenizer the code constructed.  The CUDA-capability probe
only feeds an advisory print, which we treat as pure I/O. -/
structure PrepEnv where
  transformers_ge_4_46 : Bool
  accelerate_use_fsdp : Option String
  tokenizer_len : TokenizerLoadCall → Nat

/-! ## Special tokens and chat templates -/

/-- The shape shared by the two special-token enums. -/
structure SpecialTokensSet where
  user : String
  assistant : String
  system : String
  eos_token : String
  bos_token : String
  pad_token : String
deriving DecidableEq, Repr

/-- The `.list()` classmethod: the member values in declaration order. -/
def SpecialTokensSet.list (c : SpecialTokensSet) : List String :=
  [c.user, c.assistant, c.system, c.eos_token, c.bos_token, c.pad_token]

/-- The `ZephyrSpecialTokens` enum. -/
def ZephyrSpecialTokens : SpecialTokensSet :=
  { user := "<|user|>"
    assistant := "<|assistant|>"
    system := "<|system|>"
    eos_token := "</s>"
    bos_token := "<s>"
    pad_token := "<pad>" }

/-- The `ChatmlSpecialTokens` enum.  Note: its `bos_token` member is the
Python literal `None`, which the `str`-mixin `Enum` coerces to the string
`"None"`. -/
def ChatmlSpecialTokens : SpecialTokensSet :=
  { user := "<|im_start|>user"
    assistant := "<|im_start|>assistant"
    system := "<|im_start|>system"
    eos_token := "<|im_end|>"
    bos_token := "None"
    pad_token := "<|endoftext|>" }

/-- The chatml Jinja template constant (braces written as escapes). -/
def DEFAULT_CHATML_CHAT_TEMPLATE : String :=
  "\x7b% for message in messages %\x7d\n\x7b\x7b\x27<|im_start|>\x27 + message[\x27role\x27] + \x27\n\x27 + message[\x27content\x27] + \x27<|im_end|>\x27 + \x27\n\x27\x7d\x7d\x7b% if loop.last and add_generation_prompt %\x7d\x7b\x7b\x27<|im_start|>assistant\n\x27 \x7d\x7d\x7b% endif %\x7d\x7b% endfor %\x7d"

/-- The zephyr Jinja template constant (braces written as escapes). -/
def DEFAULT_ZEPHYR_CHAT_TEMPLATE : String :=
  "\x7b% for message in messages %\x7d\n\x7b% if message[\x27role\x27] == \x27user\x27 %\x7d\n\x7b\x7b \x27<|user|>\n\x27 + message[\x27content\x27] + eos_token \x7d\x7d\n\x7b% elif message[\x27role\x27] == \x27system\x27 %\x7d\n\x7b\x7b \x27<|system|>\n\x27 + message[\x27content\x27] + eos_token \x7d\x7d\n\x7b% elif message[\x27role\x27] == \x27assistant\x27 %\x7d\n\x7b\x7b \x27<|assistant|>\n\x27  + message[\x27content\x27] + eos_token \x7d\x7d\n\x7b% endif %\x7d\n\x7b% if loop.last and add_generation_prompt %\x7d\n\x7b\x7b \x27<|assistant|>\x27 \x7d\x7d\n\x7b% endif %\x7d\n\x7b% endfor %\x7d"

/-! ## `create_and_prepare_model_for_dpo` -/

/-- The quantization branch: build the `BitsAndBytesConfig` (or not) and
remember `quant_storage_dtype`.  `getattr(torch, ...)` can raise
`AttributeError` on an unknown dtype name. -/
def quantStage (args : ModelArgs) :
    Except PyError (Option BitsAndBytesConfig × Option TorchDtype) :=
  if args.use_4bit_quantization then
    (torchGetattr args.bnb_4bit_compute_dtype).bind fun compute_dtype =>
    (torchGetattr args.bnb_4bit_quant_storage_dtype).map fun quant_storage_dtype =>
      (some { load_in_4bit := args.use_4bit_quantization
              bnb_4bit_quant_type := args.bnb_4bit_quant_type
              bnb_4bit_compute_dtype := compute_dtype
              bnb_4bit_use_double_quant := args.use_nested_quant
              bnb_4bit_quant_storage := quant_storage_dtype },
       some quant_storage_dtype)
  else if args.use_8bit_quantization then
    .ok (some { load_in_8bit := args.use_8bit_quantization }, Option.none)
  else .ok (Option.none, Option.none)

/-- Everything after the quantization branch of
`create_and_prepare_model_for_dpo`: model load, optional LoRA config,
tokenizer with template-specific special tokens, and the embedding resize
when a chat template is installed. -/
def prepareRest (env : PrepEnv) (args : ModelArgs) (data_args : DataArgs)
    (bq : Option BitsAndBytesConfig × Option TorchDtype) :
    Model × Option LoraConfig × TokenizerResult :=
  let bnb_config := bq.1
  let quant_storage_dtype := bq.2
  let torch_dtype :=
    match quant_storage_dtype with
    | some d => if d.is_floating_point then d else TorchDtype.float32
    | Option.none => TorchDtype.float32
  let model : Model :=
    { load := { model_name_or_path := args.model_name_or_path
                quantization_config := bnb_config
                attn_implementation :=
                  if args.use_flash_attn then "flash_attention_2" else "eager"
                torch_dtype := torch_dtype }
      resizes := [] }
  let peft_config : Option LoraConfig :=
    if args.use_peft_lora then
      some { lora_alpha := args.lora_alpha
             lora_dropout := args.lora_dropout
             r := args.lora_r
             bias := "none"
             task_type := "CAUSAL_LM"
             target_modules :=
               if args.lora_target_modules != "all-linear" then
                 TargetModules.list (args.lora_target_modules.splitOn ",")
               else TargetModules.str args.lora_target_modules }
    else Option.none
  let stPair : Option SpecialTokensSet × Option String :=
    if data_args.apply_chat_template == "chatml" then
      (some ChatmlSpecialTokens, some DEFAULT_CHATML_CHAT_TEMPLATE)
    else if data_args.apply_chat_template == "zephyr" then
      (some ZephyrSpecialTokens, some DEFAULT_ZEPHYR_CHAT_TEMPLATE)
    else (Option.none, Option.none)
  match stPair with
  | (some special_tokens, chat_template) =>
    let call : TokenizerLoadCall :=
      { path := args.model_name_or_path
        pad_token := some special_tokens.pad_token
        bos_token := some special_tokens.bos_token
        eos_token := some special_tokens.eos_token
        additional_special_tokens := some special_tokens.list }
    let tokenizer : TokenizerResult := { load := call, chat_template := chat_template }
    let uses_fsdp := (env.accelerate_use_fsdp.getD "").toLower == "true"
    let resize : ResizeCall :=
      if bnb_config.isSome && uses_fsdp && env.transformers_ge_4_46 then
        { new_num_tokens := env.tokenizer_len call
          pad_to_multiple_of := 8
          mean_resizing := some false }
      else
        { new_num_tokens := env.tokenizer_len call
          pad_to_multiple_of := 8
          mean_resizing := Option.none }
    ({ model with resizes := model.resizes ++ [resize] }, peft_config, tokenizer)
  | (Option.none, _) =>
    let call : TokenizerLoadCall :=
      { path := args.model_name_or_path
        pad_token := Option.none
        bos_token := Option.none
        eos_token := Option.none
        additional_special_tokens := Option.none }
    (model, peft_config, { load := call, chat_template := Option.none })

/-- `create_and_prepare_model_for_dpo`: the quantization branch followed by
model load, optional LoRA config, tokenizer configuration and the
conditional embedding resize. -/
def create_and_prepare_model_for_dpo (env : PrepEnv) (args : ModelArgs)
    (data_args : DataArgs) (training_args : TrainingArguments) :
    Except PyError (Model × Option LoraConfig × TokenizerResult) :=
  (quantStage args).map (prepareRest env args data_args)

/-! ## Concrete fixtures used to instantiate the theorems -/

/-- A sample row with a non-`chosen`/`rejected` column. -/
def wRow : Row :=
  { chosen := ChatField.conv [{ role := "user", content := "hi" }]
    rejected := ChatField.conv [{ role := "user", content := "bye" }]
    extra := [("prompt_id", "1")] }

/-- A second sample row. -/
def wRow2 : Row :=
  { chosen := ChatField.conv [{ role := "user", content := "a" }]
    rejected := ChatField.conv [{ role := "user", content := "b" }]
    extra := [("prompt_id", "2")] }

/-- A loaded `DatasetDict` with a train and a test split. -/
def wDict : Loaded := Loaded.dict [wRow] [wRow2]

/-- A loaded plain (non-split) dataset. -/
def wPlain : Loaded := Loaded.plain [wRow, wRow2]

/-- A loader that always returns `wDict`. -/
def wLoadDict : String → Loaded := fun _ => wDict

/-- A loader that always returns `wPlain`. -/
def wLoadPlain : String → Loaded := fun _ => wPlain

/-- A renderer returning a fixed string. -/
def wTok : Tokenizer := { apply_chat_template := fun _ => "RENDERED" }

/-- A renderer whose output starts with the system message. -/
def wTokSys : Tokenizer :=
  { apply_chat_template := fun _ => system_message ++ "Hello" }

/-- Sample `data_args` selecting both splits with chatml templating. -/
def wArgsBoth : DataArgs :=
  { dataset_name := "d"
    is_local_data := true
    splits := Splits.list ["train", "test"]
    apply_chat_template := "chatml"
    remove_system_message := false }

/-- Sample `data_args` with `splits = "none"` and no templating. -/
def wArgsNone : DataArgs :=
  { dataset_name := "d"
    is_local_data := false
    splits := Splits.str "none"
    apply_chat_template := "none"
    remove_system_message := false }

/-- Sample `data_args` whose splits match nothing. -/
def wArgsBad : DataArgs :=
  { dataset_name := "d"
    is_local_data := true
    splits := Splits.str "validation"
    apply_chat_template := "none"
    remove_system_message := false }

/-- Sample `data_args` with the list `["none"]` and chatml templating. -/
def wArgsListNone : DataArgs :=
  { dataset_name := "d"
    is_local_data := true
    splits := Splits.list ["none"]
    apply_chat_template := "chatml"
    remove_system_message := false }

/-- Sample model arguments: 4-bit quantization plus LoRA. -/
def wModelArgs : ModelArgs :=
  { model_name_or_path := "m"
    use_4bit_quantization := true
    use_8bit_quantization := false
    bnb_4bit_quant_type := "nf4"
    bnb_4bit_compute_dtype := "bfloat16"
    bnb_4bit_quant_storage_dtype := "bfloat16"
    use_nested_quant := true
    use_flash_attn := true
    use_peft_lora := true
    lora_alpha := 16
    lora_dropout := (1 : Rat) / 10
    lora_r := 8
    lora_target_modules := "q_proj,v_proj" }

/-- A sample environment. -/
def wEnv : PrepEnv :=
  { transformers_ge_4_46 := true
    accelerate_use_fsdp := some "True"
    tokenizer_len := fun _ => 32000 }

/-- The quantization-stage result for `wModelArgs`. -/
def wBq : Option BitsAndBytesConfig × Option TorchDtype :=
  (some { load_in_4bit := true
          load_in_8bit := false
          bnb_4bit_quant_type := "nf4"
          bnb_4bit_compute_dtype := TorchDtype.bfloat16
          bnb_4bit_use_double_quant := true
          bnb_4bit_quant_storage := TorchDtype.bfloat16 },
   some TorchDtype.bfloat16)

/-! ## String prefix bridge: `startsWith` vs character lists

The toolchain has no lemmas relating `String.startsWith` to list prefixes,
so we prove the two directions we need over `String.substrEq.loop`. -/

open String in
theorem substrEq_loop_eq_of : ∀ (m₁ m₂ l₁ r₁ l₂ r₂ : List Char),
    utf8Len m₁ = utf8Len m₂ →
    String.substrEq.loop ⟨l₁ ++ m₁ ++ r₁⟩ ⟨l₂ ++ m₂ ++ r₂⟩ ⟨utf8Len l₁⟩ ⟨utf8Len l₂⟩
      ⟨utf8Len l₁ + utf8Len m₁⟩ = true →
    m₁ = m₂ := by
  intro m₁
  induction m₁ with
  | nil =>
    intro m₂ l₁ r₁ l₂ r₂ hlen _
    simp only [utf8Len_nil] at hlen
    exact (utf8Len_eq_zero.mp hlen.symm).symm
  | cons c₁ t₁ ih =>
    intro m₂ l₁ r₁ l₂ r₂ hlen hloop
    cases m₂ with
    | nil =>
      simp only [utf8Len_cons, utf8Len_nil] at hlen
      have := c₁.utf8Size_pos
      omega
    | cons c₂ t₂ =>
      unfold String.substrEq.loop at hloop
      rw [dif_pos (by simp only [utf8Len_cons]; have := c₁.utf8Size_pos; omega)] at hloop
      have hg1 : get ⟨l₁ ++ c₁ :: t₁ ++ r₁⟩ ⟨utf8Len l₁⟩ = c₁ := by
        have h := get_of_valid l₁ (c₁ :: (t₁ ++ r₁))
        simpa using h
      have hg2 : get ⟨l₂ ++ c₂ :: t₂ ++ r₂⟩ ⟨utf8Len l₂⟩ = c₂ := by
        have h := get_of_valid l₂ (c₂ :: (t₂ ++ r₂))
        simpa using h
      simp only [hg1, hg2, Bool.and_eq_true, beq_iff_eq] at hloop
      obtain ⟨hc, hrest⟩ := hloop
      subst hc
      have hlen' : utf8Len t₁ = utf8Len t₂ := by
        simp only [utf8Len_cons] at hlen; omega
      have heq : t₁ = t₂ := by
        apply ih t₂ (l₁ ++ [c₁]) r₁ (l₂ ++ [c₁]) r₂ hlen'
        have e1 : (⟨l₁ ++ c₁ :: t₁ ++ r₁⟩ : String) = ⟨(l₁ ++ [c₁]) ++ t₁ ++ r₁⟩ := by
          simp
        have e2 : (⟨l₂ ++ c₁ :: t₂ ++ r₂⟩ : String) = ⟨(l₂ ++ [c₁]) ++ t₂ ++ r₂⟩ := by
          simp
        have e3 : (⟨utf8Len l₁⟩ : Pos) + c₁ = ⟨utf8Len (l₁ ++ [c₁])⟩ := by
          simp [Pos.addChar_eq, utf8Len_append]
        have e4 : (⟨utf8Len l₂⟩ : Pos) + c₁ = ⟨utf8Len (l₂ ++ [c₁])⟩ := by
          simp [Pos.addChar_eq, utf8Len_append]
        have e5n : utf8Len l₁ + utf8Len (c₁ :: t₁) = utf8Len (l₁ ++ [c₁]) + utf8Len t₁ := by
          simp only [utf8Len_append, utf8Len_cons, utf8Len_nil]; omega
        have e5 : (⟨utf8Len l₁ + utf8Len (c₁ :: t₁)⟩ : Pos)
            = ⟨utf8Len (l₁ ++ [c₁]) + utf8Len t₁⟩ := by
          rw [e5n]
        rw [e1, e2, e3, e4, e5] at hrest
        exact hrest
      rw [heq]

open String in
theorem take_eq_of_startsWith (s p : String) (h : s.startsWith p = true) :
    s.data.take p.length = p.data := by
  have hv : Substring.ValidFor [] (s.data.take p.length) (s.data.drop p.length ++ [])
      (s.toSubstring.take p.length) := (String.validFor_toSubstring s).take p.length
  have hvp : Substring.ValidFor [] p.data [] p.toSubstring := String.validFor_toSubstring p
  rw [String.startsWith] at h
  have hbeq : Substring.beq (s.toSubstring.take p.length) p.toSubstring = true := h
  rw [Substring.beq] at hbeq
  rw [hv.bsize, hvp.bsize, hv.str, hv.startPos, hvp.str, hvp.startPos] at hbeq
  simp only [Bool.and_eq_true, beq_iff_eq] at hbeq
  obtain ⟨hlen, hsub⟩ := hbeq
  rw [String.substrEq] at hsub
  simp only [Bool.and_eq_true, decide_eq_true_eq] at hsub
  obtain ⟨⟨-, -⟩, hloop⟩ := hsub
  apply substrEq_loop_eq_of (s.data.take p.length) p.data [] (s.data.drop p.length ++ []) [] []
    hlen
  have hmk : (⟨(0 : Nat) + utf8Len (s.data.take p.length)⟩ : Pos)
      = ⟨utf8Len ([] : List Char) + utf8Len (s.data.take p.length)⟩ := by simp
  rw [← hmk]
  exact hloop

open String in
theorem append_drop_of_startsWith (s p : String) (h : s.startsWith p = true) :
    p ++ s.drop p.length = s := by
  apply String.ext
  rw [String.data_append, String.drop_eq]
  show p.data ++ s.data.drop p.length = s.data
  rw [← take_eq_of_startsWith s p h]
  exact List.take_append_drop _ _

open String in
theorem substrEq_loop_refl : ∀ (m l₁ r₁ l₂ r₂ : List Char),
    String.substrEq.loop ⟨l₁ ++ m ++ r₁⟩ ⟨l₂ ++ m ++ r₂⟩ ⟨utf8Len l₁⟩ ⟨utf8Len l₂⟩
      ⟨utf8Len l₁ + utf8Len m⟩ = true := by
  intro m
  induction m with
  | nil =>
    intro l₁ r₁ l₂ r₂
    unfold String.substrEq.loop
    rw [dif_neg (by simp)]
  | cons c t ih =>
    intro l₁ r₁ l₂ r₂
    unfold String.substrEq.loop
    rw [dif_pos (by simp only [utf8Len_cons]; have := c.utf8Size_pos; omega)]
    have hg1 : get ⟨l₁ ++ c :: t ++ r₁⟩ ⟨utf8Len l₁⟩ = c := by
      have h := get_of_valid l₁ (c :: (t ++ r₁))
      simpa using h
    have hg2 : get ⟨l₂ ++ c :: t ++ r₂⟩ ⟨utf8Len l₂⟩ = c := by
      have h := get_of_valid l₂ (c :: (t ++ r₂))
      simpa using h
    simp only [hg1, hg2, Bool.and_eq_true, beq_self_eq_true, true_and]
    have e1 : (⟨l₁ ++ c :: t ++ r₁⟩ : String) = ⟨(l₁ ++ [c]) ++ t ++ r₁⟩ := by simp
    have e2 : (⟨l₂ ++ c :: t ++ r₂⟩ : String) = ⟨(l₂ ++ [c]) ++ t ++ r₂⟩ := by simp
    have e3 : (⟨utf8Len l₁⟩ : Pos) + c = ⟨utf8Len (l₁ ++ [c])⟩ := by
      simp [Pos.addChar_eq, utf8Len_append]
    have e4 : (⟨utf8Len l₂⟩ : Pos) + c = ⟨utf8Len (l₂ ++ [c])⟩ := by
      simp [Pos.addChar_eq, utf8Len_append]
    have e5n : utf8Len l₁ + utf8Len (c :: t) = utf8Len (l₁ ++ [c]) + utf8Len t := by
      simp only [utf8Len_append, utf8Len_cons, utf8Len_nil]; omega
    have e5 : (⟨utf8Len l₁ + utf8Len (c :: t)⟩ : Pos)
        = ⟨utf8Len (l₁ ++ [c]) + utf8Len t⟩ := by
      rw [e5n]
    rw [e1, e2, e3, e4, e5]
    exact ih (l₁ ++ [c]) r₁ (l₂ ++ [c]) r₂

open String in
theorem startsWith_of_take_eq (s p : String) (h : s.data.take p.length = p.data) :
    s.startsWith p = true := by
  have hv : Substring.ValidFor [] (s.data.take p.length) (s.data.drop p.length ++ [])
      (s.toSubstring.take p.length) := (String.validFor_toSubstring s).take p.length
  have hvp : Substring.ValidFor [] p.data [] p.toSubstring := String.validFor_toSubstring p
  rw [String.startsWith]
  show Substring.beq (s.toSubstring.take p.length) p.toSubstring = true
  rw [Substring.beq]
  rw [hv.bsize, hvp.bsize, hv.str, hv.startPos, hvp.str, hvp.startPos]
  rw [h]
  simp only [Bool.and_eq_true, beq_self_eq_true, true_and]
  rw [String.substrEq]
  simp only [Bool.and_eq_true, decide_eq_true_eq]
  refine ⟨⟨?_, ?_⟩, ?_⟩
  · simp [utf8Len_append]
  · simp
  · exact substrEq_loop_refl p.data [] (s.data.drop p.length ++ []) [] []

/-- A string extended to the right starts with itself. -/
theorem startsWith_append_left (p t : String) : (p ++ t).startsWith p = true := by
  apply startsWith_of_take_eq
  rw [String.data_append]
  have : p.length = p.data.length := rfl
  rw [this]
  exact List.take_left p.data t.data

/-! ## Helper lemmas about the embedded functions -/

theorem except_map_eq_ok {ε α β : Type _} {f : α → β} {e : Except ε α} {y : β}
    (h : Except.map f e = Except.ok y) : ∃ x, e = Except.ok x ∧ f x = y := by
  cases e with
  | error err => simp [Except.map] at h
  | ok x =>
    refine ⟨x, rfl, ?_⟩
    simpa [Except.map] using h

theorem prepareRest_load (env : PrepEnv) (args : ModelArgs) (data_args : DataArgs)
    (bq : Option BitsAndBytesConfig × Option TorchDtype) :
    ((prepareRest env args data_args bq).1).load.quantization_config = bq.1 := by
  rw [prepareRest]
  split <;> rfl

/-- C3: quantization is optional and mutually exclusive.  When
`use_4bit_quantization` is set (taking precedence over the 8-bit flag) the
model is loaded with a `BitsAndBytesConfig` built from the 4-bit arguments
and the dtypes named by `bnb_4bit_compute_dtype` /
`bnb_4bit_quant_storage_dtype`; otherwise the 8-bit flag selects
`BitsAndBytesConfig(load_in_8bit=True)`; otherwise `quantization_config`
is `None`. -/
theorem create_and_prepare_quantization_config (env : PrepEnv) (args : ModelArgs)
    (data_args : DataArgs) (training_args : TrainingArguments)
    (m : Model) (pc : Option LoraConfig) (tok : TokenizerResult)
    (h : create_and_prepare_model_for_dpo env args data_args training_args
      = Except.ok (m, pc, tok)) :
    (args.use_4bit_quantization = true →
      ∃ cd sd, torchGetattr args.bnb_4bit_compute_dtype = Except.ok cd ∧
        torchGetattr args.bnb_4bit_quant_storage_dtype = Except.ok sd ∧
        m.load.quantization_config = some
          { load_in_4bit := true
            load_in_8bit := false
            bnb_4bit_quant_type := args.bnb_4bit_quant_type
            bnb_4bit_compute_dtype := cd
            bnb_4bit_use_double_quant := args.use_nested_quant
            bnb_4bit_quant_storage := sd })
    ∧ (args.use_4bit_quantization = false → args.use_8bit_quantization = true →
        m.load.quantization_config = some { load_in_8bit := true })
    ∧ (args.use_4bit_quantization = false → args.use_8bit_quantization = false →
        m.load.quantization_config = Option.none) := by
  rw [create_and_prepare_model_for_dpo] at h
  obtain ⟨bq, hq, hrest⟩ := except_map_eq_ok h
  have hm : m = (prepareRest env args data_args bq).1 := by rw [hrest]
  have hqc : m.load.quantization_config = bq.1 := by
    rw [hm, prepareRest_load]
  refine ⟨?_, ?_, ?_⟩
  · intro h4
    rw [quantStage, if_pos h4] at hq
    cases hcd : torchGetattr args.bnb_4bit_compute_dtype with
    | error e => rw [hcd] at hq; simp [Except.bind] at hq
    | ok cd =>
      rw [hcd] at hq
      cases hsd : torchGetattr args.bnb_4bit_quant_storage_dtype with
      | error e => rw [hsd] at hq; simp [Except.bind, Except.map] at hq
      | ok sd =>
        rw [hsd] at hq
        simp only [Except.bind, Except.map, Except.ok.injEq] at hq
        refine ⟨cd, sd, rfl, rfl, ?_⟩
        rw [hqc, ← hq]
        simp [h4]
  · intro h4 h8
    rw [quantStage, if_neg (by simp [h4]), if_pos h8] at hq
    simp only [Except.ok.injEq] at hq
    rw [hqc, ← hq]
    simp [h8]
  · intro h4 h8
    rw [quantStage, if_neg (by simp [h4]), if_neg (by simp [h8])] at hq
    simp only [Except.ok.injEq] at hq
    rw [hqc, ← hq]

/-- Witness for C3 at a concrete 4-bit configuration. -/
theorem create_and_prepare_quantization_config_witness :
    ∃ cd sd, torchGetattr wModelArgs.bnb_4bit_compute_dtype = Except.ok cd ∧
      torchGetattr wModelArgs.bnb_4bit_quant_storage_dtype = Except.ok sd ∧
      (prepareRest wEnv wModelArgs wArgsBoth
        (some { load_in_4bit := true
                bnb_4bit_quant_type := "nf4"
                bnb_4bit_compute_dtype := TorchDtype.bfloat16
                bnb_4bit_use_double_quant := true
                bnb_4bit_quant_storage := TorchDtype.bfloat16 },
         some TorchDtype.bfloat16)).1.load.quantization_config = some
        { load_in_4bit := true
          load_in_8bit := false
          bnb_4bit_quant_type := wModelArgs.bnb_4bit_quant_type
          bnb_4bit_compute_dtype := cd
          bnb_4bit_use_double_quant := wModelArgs.use_nested_quant
          bnb_4bit_quant_storage := sd } :=
  (create_and_prepare_quantization_config wEnv wModelArgs wArgsBoth ⟨⟩ _ _ _ rfl).1 rfl

theorem prepareRest_peft (env : PrepEnv) (args : ModelArgs) (data_args : DataArgs)
    (bq : Option BitsAndBytesConfig × Option TorchDtype) :
    (prepareRest env args data_args bq).2.1 =
      (if args.use_peft_lora then
        some { lora_alpha := args.lora_alpha
               lora_dropout := args.lora_dropout
               r := args.lora_r
               bias := "none"
               task_type := "CAUSAL_LM"
               target_modules :=
                 if args.lora_target_modules != "all-linear" then
                   TargetModules.list (args.lora_target_modules.splitOn ",")
                 else TargetModules.str args.lora_target_modules }
      else Option.none) := by
  rw [prepareRest]
  split <;> rfl

/-- C8: `peft_config` is non-`None` exactly when `use_peft_lora` is set, and
then it is a `LoraConfig` with the given alpha, dropout and rank,
`bias="none"`, `task_type="CAUSAL_LM"`, and `target_modules` split on commas
unless the string is exactly `"all-linear"`, which is passed unsplit. -/
theorem create_and_prepare_peft_config (env : PrepEnv) (args : ModelArgs)
    (data_args : DataArgs) (training_args : TrainingArguments)
    (m : Model) (pc : Option LoraConfig) (tok : TokenizerResult)
    (h : create_and_prepare_model_for_dpo env args data_args training_args
      = Except.ok (m, pc, tok)) :
    (pc.isSome = true ↔ args.use_peft_lora = true)
    ∧ (args.use_peft_lora = true →
        pc = some { lora_alpha := args.lora_alpha
                    lora_dropout := args.lora_dropout
                    r := args.lora_r
                    bias := "none"
                    task_type := "CAUSAL_LM"
                    target_modules :=
                      if args.lora_target_modules != "all-linear" then
                        TargetModules.list (args.lora_target_modules.splitOn ",")
                      else TargetModules.str args.lora_target_modules }) := by
  rw [create_and_prepare_model_for_dpo] at h
  obtain ⟨bq, hq, hrest⟩ := except_map_eq_ok h
  have hpc : pc = (prepareRest env args data_args bq).2.1 := by rw [hrest]
  rw [prepareRest_peft] at hpc
  constructor
  · constructor
    · intro hs
      by_contra hienie
      rw [if_neg (by simpa using hienie)] at hpc
      rw [hpc] at hs
      simp at hs
    · intro hl
      rw [if_pos hl] at hpc
      rw [hpc]
      rfl
  · intro hl
    rw [if_pos hl] at hpc
    exact hpc

/-- Witness for C8 at `wModelArgs` (LoRA enabled, comma-separated target
modules). -/
theorem create_and_prepare_peft_config_witness :
    (prepareRest wEnv wModelArgs wArgsBoth wBq).2.1
      = some { lora_alpha := wModelArgs.lora_alpha
               lora_dropout := wModelArgs.lora_dropout
               r := wModelArgs.lora_r
               bias := "none"
               task_type := "CAUSAL_LM"
               target_modules :=
                 if wModelArgs.lora_target_modules != "all-linear" then
                   TargetModules.list (wModelArgs.lora_target_modules.splitOn ",")
                 else TargetModules.str wModelArgs.lora_target_modules } :=
  (create_and_prepare_peft_config wEnv wModelArgs wArgsBoth ⟨⟩
    (prepareRest wEnv wModelArgs wArgsBoth wBq).1
    (prepareRest wEnv wModelArgs wArgsBoth wBq).2.1
    (prepareRest wEnv wModelArgs wArgsBoth wBq).2.2 rfl).2 rfl

theorem prepareRest_tok_chatml (env : PrepEnv) (args : ModelArgs) (data_args : DataArgs)
    (bq : Option BitsAndBytesConfig × Option TorchDtype)
    (hc : data_args.apply_chat_template = "chatml") :
    (prepareRest env args data_args bq).2.2 =
      { load := { path := args.model_name_or_path
                  pad_token := some ChatmlSpecialTokens.pad_token
                  bos_token := some ChatmlSpecialTokens.bos_token
                  eos_token := some ChatmlSpecialTokens.eos_token
                  additional_special_tokens := some ChatmlSpecialTokens.list }
        chat_template := some DEFAULT_CHATML_CHAT_TEMPLATE } := by
  rw [prepareRest, hc]
  rfl

theorem prepareRest_tok_zephyr (env : PrepEnv) (args : ModelArgs) (data_args : DataArgs)
    (bq : Option BitsAndBytesConfig × Option TorchDtype)
    (hc : data_args.apply_chat_template = "zephyr") :
    (prepareRest env args data_args bq).2.2 =
      { load := { path := args.model_name_or_path
                  pad_token := some ZephyrSpecialTokens.pad_token
                  bos_token := some ZephyrSpecialTokens.bos_token
                  eos_token := some ZephyrSpecialTokens.eos_token
                  additional_special_tokens := some ZephyrSpecialTokens.list }
        chat_template := some DEFAULT_ZEPHYR_CHAT_TEMPLATE } := by
  rw [prepareRest, hc]
  rfl

theorem prepareRest_tok_other (env : PrepEnv) (args : ModelArgs) (data_args : DataArgs)
    (bq : Option BitsAndBytesConfig × Option TorchDtype)
    (hc1 : data_args.apply_chat_template ≠ "chatml")
    (hc2 : data_args.apply_chat_template ≠ "zephyr") :
    (prepareRest env args data_args bq).2.2 =
      { load := { path := args.model_name_or_path
                  pad_token := Option.none
                  bos_token := Option.none
                  eos_token := Option.none
                  additional_special_tokens := Option.none }
        chat_template := Option.none } := by
  have h1 : (data_args.apply_chat_template == "chatml") = false := by
    simpa using hc1
  have h2 : (data_args.apply_chat_template == "zephyr") = false := by
    simpa using hc2
  rw [prepareRest, h1, h2]
  rfl

/-- C4: the tokenizer is created with the chatml special tokens and
`DEFAULT_CHATML_CHAT_TEMPLATE` when `apply_chat_template` is `"chatml"`,
with the zephyr ones and `DEFAULT_ZEPHYR_CHAT_TEMPLATE` when it is
`"zephyr"`, and with no special-token or chat-template overrides for any
other value. -/
theorem create_and_prepare_tokenizer_config (env : PrepEnv) (args : ModelArgs)
    (data_args : DataArgs) (training_args : TrainingArguments)
    (m : Model) (pc : Option LoraConfig) (tok : TokenizerResult)
    (h : create_and_prepare_model_for_dpo env args data_args training_args
      = Except.ok (m, pc, tok)) :
    (data_args.apply_chat_template = "chatml" →
      tok = { load := { path := args.model_name_or_path
                        pad_token := some ChatmlSpecialTokens.pad_token
                        bos_token := some ChatmlSpecialTokens.bos_token
                        eos_token := some ChatmlSpecialTokens.eos_token
                        additional_special_tokens := some ChatmlSpecialTokens.list }
              chat_template := some DEFAULT_CHATML_CHAT_TEMPLATE })
    ∧ (data_args.apply_chat_template = "zephyr" →
      tok = { load := { path := args.model_name_or_path
                        pad_token := some ZephyrSpecialTokens.pad_token
                        bos_token := some ZephyrSpecialTokens.bos_token
                        eos_token := some ZephyrSpecialTokens.eos_token
                        additional_special_tokens := some ZephyrSpecialTokens.list }
              chat_template := some DEFAULT_ZEPHYR_CHAT_TEMPLATE })
    ∧ (data_args.apply_chat_template ≠ "chatml" →
       data_args.apply_chat_template ≠ "zephyr" →
      tok = { load := { path := args.model_name_or_path
                        pad_token := Option.none
                        bos_token := Option.none
                        eos_token := Option.none
                        additional_special_tokens := Option.none }
              chat_template := Option.none }) := by
  rw [create_and_prepare_model_for_dpo] at h
  obtain ⟨bq, hq, hrest⟩ := except_map_eq_ok h
  have htok : tok = (prepareRest env args data_args bq).2.2 := by rw [hrest]
  refine ⟨?_, ?_, ?_⟩
  · intro hc
    rw [htok, prepareRest_tok_chatml env args data_args bq hc]
  · intro hc
    rw [htok, prepareRest_tok_zephyr env args data_args bq hc]
  · intro hc1 hc2
    rw [htok, prepareRest_tok_other env args data_args bq hc1 hc2]

/-- Witness for C4 at the chatml configuration. -/
theorem create_and_prepare_tokenizer_config_witness :
    (prepareRest wEnv wModelArgs wArgsBoth wBq).2.2
      = { load := { path := wModelArgs.model_name_or_path
                    pad_token := some ChatmlSpecialTokens.pad_token
                    bos_token := some ChatmlSpecialTokens.bos_token
                    eos_token := some ChatmlSpecialTokens.eos_token
                    additional_special_tokens := some ChatmlSpecialTokens.list }
          chat_template := some DEFAULT_CHATML_CHAT_TEMPLATE } :=
  (create_and_prepare_tokenizer_config wEnv wModelArgs wArgsBoth ⟨⟩
    (prepareRest wEnv wModelArgs wArgsBoth wBq).1
    (prepareRest wEnv wModelArgs wArgsBoth wBq).2.1
    (prepareRest wEnv wModelArgs wArgsBoth wBq).2.2 rfl).1 rfl

theorem quantStage_fst_isSome (args : ModelArgs)
    (bq : Option BitsAndBytesConfig × Option TorchDtype)
    (hq : quantStage args = Except.ok bq) :
    bq.1.isSome = (args.use_4bit_quantization || args.use_8bit_quantization) := by
  by_cases h4 : args.use_4bit_quantization = true
  · rw [quantStage, if_pos h4] at hq
    cases hcd : torchGetattr args.bnb_4bit_compute_dtype with
    | error e => rw [hcd] at hq; simp [Except.bind] at hq
    | ok cd =>
      rw [hcd] at hq
      cases hsd : torchGetattr args.bnb_4bit_quant_storage_dtype with
      | error e => rw [hsd] at hq; simp [Except.bind, Except.map] at hq
      | ok sd =>
        rw [hsd] at hq
        simp only [Except.bind, Except.map, Except.ok.injEq] at hq
        rw [← hq, h4]
        rfl
  · have h4f : args.use_4bit_quantization = false := by simpa using h4
    by_cases h8 : args.use_8bit_quantization = true
    · rw [quantStage, if_neg (by simp [h4f]), if_pos h8] at hq
      simp only [Except.ok.injEq] at hq
      rw [← hq, h4f, h8]
      rfl
    · have h8f : args.use_8bit_quantization = false := by simpa using h8
      rw [quantStage, if_neg (by simp [h4f]), if_neg (by simp [h8f])] at hq
      simp only [Except.ok.injEq] at hq
      rw [← hq, h4f, h8f]
      rfl

theorem prepareRest_resizes_chatml (env : PrepEnv) (args : ModelArgs)
    (data_args : DataArgs) (bq : Option BitsAndBytesConfig × Option TorchDtype)
    (hc : data_args.apply_chat_template = "chatml") :
    (prepareRest env args data_args bq).1.resizes =
      [{ new_num_tokens := env.tokenizer_len
           { path := args.model_name_or_path
             pad_token := some ChatmlSpecialTokens.pad_token
             bos_token := some ChatmlSpecialTokens.bos_token
             eos_token := some ChatmlSpecialTokens.eos_token
             additional_special_tokens := some ChatmlSpecialTokens.list }
         pad_to_multiple_of := 8
         mean_resizing :=
           if (bq.1.isSome && ((env.accelerate_use_fsdp.getD "").toLower == "true")
               && env.transformers_ge_4_46) = true
           then some false else Option.none }] := by
  rw [prepareRest, hc]
  cases hcond : (bq.1.isSome && ((env.accelerate_use_fsdp.getD "").toLower == "true")
      && env.transformers_ge_4_46) <;> simp only [hcond] <;> rfl

theorem prepareRest_resizes_zephyr (env : PrepEnv) (args : ModelArgs)
    (data_args : DataArgs) (bq : Option BitsAndBytesConfig × Option TorchDtype)
    (hc : data_args.apply_chat_template = "zephyr") :
    (prepareRest env args data_args bq).1.resizes =
      [{ new_num_tokens := env.tokenizer_len
           { path := args.model_name_or_path
             pad_token := some ZephyrSpecialTokens.pad_token
             bos_token := some ZephyrSpecialTokens.bos_token
             eos_token := some ZephyrSpecialTokens.eos_token
             additional_special_tokens := some ZephyrSpecialTokens.list }
         pad_to_multiple_of := 8
         mean_resizing :=
           if (bq.1.isSome && ((env.accelerate_use_fsdp.getD "").toLower == "true")
               && env.transformers_ge_4_46) = true
           then some false else Option.none }] := by
  rw [prepareRest, hc]
  cases hcond : (bq.1.isSome && ((env.accelerate_use_fsdp.getD "").toLower == "true")
      && env.transformers_ge_4_46) <;> simp only [hcond] <;> rfl

theorem prepareRest_resizes_other (env : PrepEnv) (args : ModelArgs)
    (data_args : DataArgs) (bq : Option BitsAndBytesConfig × Option TorchDtype)
    (hc1 : data_args.apply_chat_template ≠ "chatml")
    (hc2 : data_args.apply_chat_template ≠ "zephyr") :
    (prepareRest env args data_args bq).1.resizes = [] := by
  have h1 : (data_args.apply_chat_template == "chatml") = false := by simpa using hc1
  have h2 : (data_args.apply_chat_template == "zephyr") = false := by simpa using hc2
  rw [prepareRest, h1, h2]
  rfl

/-- C7: when a chat template (`"chatml"` or `"zephyr"`) is applied, the
model embeddings are resized exactly once, with the new tokenizer length
and `pad_to_multiple_of=8`, and `mean_resizing=False` is passed exactly
when a quantization config was built, `ACCELERATE_USE_FSDP` is `"true"`
case-insensitively, and the installed transformers version is at least
4.46.0; with no chat template, the embeddings are never resized. -/
theorem create_and_prepare_resize_embeddings (env : PrepEnv) (args : ModelArgs)
    (data_args : DataArgs) (training_args : TrainingArguments)
    (m : Model) (pc : Option LoraConfig) (tok : TokenizerResult)
    (h : create_and_prepare_model_for_dpo env args data_args training_args
      = Except.ok (m, pc, tok)) :
    ((data_args.apply_chat_template = "chatml" ∨ data_args.apply_chat_template = "zephyr") →
      m.resizes =
        [{ new_num_tokens := env.tokenizer_len tok.load
           pad_to_multiple_of := 8
           mean_resizing :=
             if ((args.use_4bit_quantization || args.use_8bit_quantization)
                 && ((env.accelerate_use_fsdp.getD "").toLower == "true")
                 && env.transformers_ge_4_46) = true
             then some false else Option.none }])
    ∧ (data_args.apply_chat_template ≠ "chatml" →
       data_args.apply_chat_template ≠ "zephyr" → m.resizes = []) := by
  rw [create_and_prepare_model_for_dpo] at h
  obtain ⟨bq, hq, hrest⟩ := except_map_eq_ok h
  have hm : m = (prepareRest env args data_args bq).1 := by rw [hrest]
  have htok : tok = (prepareRest env args data_args bq).2.2 := by rw [hrest]
  have hbs := quantStage_fst_isSome args bq hq
  constructor
  · rintro (hc | hc)
    · rw [hm, prepareRest_resizes_chatml env args data_args bq hc, htok,
        prepareRest_tok_chatml env args data_args bq hc, hbs]
    · rw [hm, prepareRest_resizes_zephyr env args data_args bq hc, htok,
        prepareRest_tok_zephyr env args data_args bq hc, hbs]
  · intro hc1 hc2
    rw [hm, prepareRest_resizes_other env args data_args bq hc1 hc2]

/-- Witness for C7 at the chatml configuration. -/
theorem create_and_prepare_resize_embeddings_witness :
    (prepareRest wEnv wModelArgs wArgsBoth wBq).1.resizes =
      [{ new_num_tokens :=
           wEnv.tokenizer_len (prepareRest wEnv wModelArgs wArgsBoth wBq).2.2.load
         pad_to_multiple_of := 8
         mean_resizing :=
           if ((wModelArgs.use_4bit_quantization || wModelArgs.use_8bit_quantization)
               && ((wEnv.accelerate_use_fsdp.getD "").toLower == "true")
               && wEnv.transformers_ge_4_46) = true
           then some false else Option.none }] :=
  (create_and_prepare_resize_embeddings wEnv wModelArgs wArgsBoth ⟨⟩
    (prepareRest wEnv wModelArgs wArgsBoth wBq).1
    (prepareRest wEnv wModelArgs wArgsBoth wBq).2.1
    (prepareRest wEnv wModelArgs wArgsBoth wBq).2.2 rfl).1 (Or.inl rfl)

/-- C10: with `remove_system_message` unset the output is exactly the raw
template rendering; with it set, the exact system-message prefix is removed
if and only if the rendered text starts with it (prepending the prefix to
the result recovers the rendering), and the text is returned unchanged
otherwise — in particular a system message not at the start is never
removed. -/
theorem to_apply_chat_template_system_strip (tokenizer : Tokenizer) (messages : ChatField) :
    to_apply_chat_template messages tokenizer false = tokenizer.apply_chat_template messages
    ∧ ((tokenizer.apply_chat_template messages).startsWith system_message = true →
        to_apply_chat_template messages tokenizer true
          = (tokenizer.apply_chat_template messages).drop system_message.length
        ∧ system_message ++ to_apply_chat_template messages tokenizer true
          = tokenizer.apply_chat_template messages)
    ∧ ((tokenizer.apply_chat_template messages).startsWith system_message = false →
        to_apply_chat_template messages tokenizer true
          = tokenizer.apply_chat_template messages) := by
  refine ⟨rfl, ?_, ?_⟩
  · intro hs
    have hdrop : to_apply_chat_template messages tokenizer true
        = (tokenizer.apply_chat_template messages).drop system_message.length := by
      simp [to_apply_chat_template, hs]
    refine ⟨hdrop, ?_⟩
    rw [hdrop]
    exact append_drop_of_startsWith _ _ hs
  · intro hs
    simp [to_apply_chat_template, hs]

/-- Witness for C10: one rendering that starts with the system message (it
is stripped and re-appending recovers the rendering) and one that does not
(returned unchanged). -/
theorem to_apply_chat_template_system_strip_witness :
    (to_apply_chat_template (ChatField.conv []) wTokSys true
        = (wTokSys.apply_chat_template (ChatField.conv [])).drop system_message.length
      ∧ system_message ++ to_apply_chat_template (ChatField.conv []) wTokSys true
        = wTokSys.apply_chat_template (ChatField.conv []))
    ∧ to_apply_chat_template (ChatField.conv []) wTok true
        = wTok.apply_chat_template (ChatField.conv []) :=
  ⟨(to_apply_chat_template_system_strip wTokSys (ChatField.conv [])).2.1
      (startsWith_append_left system_message "Hello"),
   (to_apply_chat_template_system_strip wTok (ChatField.conv [])).2.2
      (by
        show ("RENDERED".startsWith system_message) = false
        cases hb : ("RENDERED".startsWith system_message) with
        | false => rfl
        | true =>
          exact absurd (take_eq_of_startsWith "RENDERED" system_message hb) (by decide))⟩

/-- C6: the `map`-based preprocessing of a split changes only the `chosen`
and `rejected` columns: every other column of every row is unchanged, and
the number of rows is unchanged. -/
theorem preprocess_map_frame (tokenizer : Tokenizer) (remove_system_message : Bool)
    (d : Dataset) :
    (d.map (preprocess tokenizer remove_system_message)).length = d.length
    ∧ ∀ i : Nat, ∀ h1 : i < d.length,
        ∀ h2 : i < (d.map (preprocess tokenizer remove_system_message)).length,
        ((d.map (preprocess tokenizer remove_system_message)).get ⟨i, h2⟩).extra
          = (d.get ⟨i, h1⟩).extra := by
  constructor
  · exact List.length_map d _
  · intro i h1 h2
    have hg : (d.map (preprocess tokenizer remove_system_message)).get ⟨i, h2⟩
        = preprocess tokenizer remove_system_message (d.get ⟨i, h1⟩) := by
      simp [List.getElem_map]
    rw [hg]
    rfl

/-- Witness for C6 on a one-row dataset. -/
theorem preprocess_map_frame_witness :
    (([wRow].map (preprocess wTok false)).get ⟨0, by simp⟩).extra
      = ([wRow].get ⟨0, by simp⟩).extra :=
  (preprocess_map_frame wTok false [wRow]).2 0 (by simp) (by simp)

/-- C5: the dataset is loaded via `load_from_disk` exactly when
`is_local_data` is set and via `load_dataset` exactly otherwise, in both
cases on `dataset_name`; there is no other loading path, so the result
depends only on the selected loader's value at `dataset_name`. -/
theorem create_dpo_datasets_loading_path
    (load_from_disk load_from_disk2 load_dataset load_dataset2 : String → Loaded)
    (tokenizer : Tokenizer) (data_args : DataArgs) :
    (data_args.is_local_data = true →
      load_from_disk data_args.dataset_name = load_from_disk2 data_args.dataset_name →
      create_dpo_datasets load_from_disk load_dataset tokenizer data_args
        = create_dpo_datasets load_from_disk2 load_dataset2 tokenizer data_args)
    ∧ (data_args.is_local_data = false →
      load_dataset data_args.dataset_name = load_dataset2 data_args.dataset_name →
      create_dpo_datasets load_from_disk load_dataset tokenizer data_args
        = create_dpo_datasets load_from_disk2 load_dataset2 tokenizer data_args) := by
  constructor
  · intro hl he
    rw [create_dpo_datasets, create_dpo_datasets, hl]
    have e1 : (if (true : Bool) = true then load_from_disk else load_dataset)
        = load_from_disk := rfl
    have e2 : (if (true : Bool) = true then load_from_disk2 else load_dataset2)
        = load_from_disk2 := rfl
    rw [e1, e2, he]
  · intro hl he
    rw [create_dpo_datasets, create_dpo_datasets, hl]
    have e1 : (if (false : Bool) = true then load_from_disk else load_dataset)
        = load_dataset := rfl
    have e2 : (if (false : Bool) = true then load_from_disk2 else load_dataset2)
        = load_dataset2 := rfl
    rw [e1, e2, he]

/-- Witness for C5: with local data the remote loader is irrelevant. -/
theorem create_dpo_datasets_loading_path_witness :
    create_dpo_datasets wLoadDict wLoadDict wTok wArgsBoth
      = create_dpo_datasets wLoadDict wLoadPlain wTok wArgsBoth :=
  (create_dpo_datasets_loading_path wLoadDict wLoadDict wLoadDict wLoadPlain
    wTok wArgsBoth).1 rfl rfl

theorem Splits.eqStr_none_iff (s : Splits) :
    s.eqStr "none" = true ↔ s = Splits.str "none" := by
  cases s with
  | str u => simp [Splits.eqStr]
  | list l => simp [Splits.eqStr]

theorem dpoPipeline_splits_none (L : Loaded) (tok : Tokenizer) (da : DataArgs)
    (h : da.splits = Splits.str "none") :
    dpoPipeline L tok da =
      Except.ok
        ((if (da.apply_chat_template != "none") = true then
            (L.mapRows (preprocess tok da.remove_system_message)).toVal
          else L.toVal), SplitVal.none) := by
  have ht : da.splits.mem "train" = false := by rw [h]; decide
  have hs : da.splits.mem "test" = false := by rw [h]; decide
  have hn : da.splits.mem "none" = true := by rw [h]; decide
  have hne : da.splits.eqStr "none" = true := by rw [h]; decide
  cases happly : (da.apply_chat_template != "none") with
  | true =>
    cases L with
    | dict a b =>
      simp [dpoPipeline, selectSplits, mapStage, printStage, returnStage, ht, hs, hn, hne,
        happly, Loaded.toVal, Loaded.mapRows, SplitVal.mapVal, SplitVal.lenVal,
        RawDatasets.getTrain, RawDatasets.getTest, Except.bind, Except.map]
    | plain d =>
      simp [dpoPipeline, selectSplits, mapStage, printStage, returnStage, ht, hs, hn, hne,
        happly, Loaded.toVal, Loaded.mapRows, SplitVal.mapVal, SplitVal.lenVal,
        RawDatasets.getTrain, RawDatasets.getTest, Except.bind, Except.map]
  | false =>
    cases L with
    | dict a b =>
      simp [dpoPipeline, selectSplits, mapStage, printStage, returnStage, ht, hs, hn, hne,
        happly, Loaded.toVal, Loaded.mapRows, SplitVal.mapVal, SplitVal.lenVal,
        RawDatasets.getTrain, RawDatasets.getTest, Except.bind, Except.map]
    | plain d =>
      simp [dpoPipeline, selectSplits, mapStage, printStage, returnStage, ht, hs, hn, hne,
        happly, Loaded.toVal, Loaded.mapRows, SplitVal.mapVal, SplitVal.lenVal,
        RawDatasets.getTrain, RawDatasets.getTest, Except.bind, Except.map]

theorem eqStr_none_false_of_mem_none_false (s : Splits) (hn : s.mem "none" = false) :
    s.eqStr "none" = false := by
  cases hcase : s.eqStr "none" with
  | false => rfl
  | true =>
    rw [(Splits.eqStr_none_iff s).mp hcase] at hn
    have hd : (Splits.str "none").mem "none" = true := by decide
    rw [hd] at hn
    cases hn

theorem dpoPipeline_both_dict (a b : Dataset) (tok : Tokenizer) (da : DataArgs)
    (ht : da.splits.mem "train" = true) (hs : da.splits.mem "test" = true)
    (hn : da.splits.mem "none" = false) :
    dpoPipeline (Loaded.dict a b) tok da =
      Except.ok
        (if (da.apply_chat_template != "none") = true then
          (SplitVal.ds (a.map (preprocess tok da.remove_system_message)),
           SplitVal.ds (b.map (preprocess tok da.remove_system_message)))
        else (SplitVal.ds a, SplitVal.ds b)) := by
  have hne := eqStr_none_false_of_mem_none_false da.splits hn
  cases happly : (da.apply_chat_template != "none") <;>
    simp [dpoPipeline, selectSplits, mapStage, printStage, returnStage, ht, hs, hn, hne,
      happly, Loaded.getSplit, SplitVal.mapVal, SplitVal.lenVal,
      RawDatasets.getTrain, RawDatasets.getTest, Except.bind, Except.map]

theorem dpoPipeline_valueError (L : Loaded) (tok : Tokenizer) (da : DataArgs)
    (ht : da.splits.mem "train" = false) (hs : da.splits.mem "test" = false)
    (hn : da.splits.mem "none" = false) :
    dpoPipeline L tok da = Except.error (PyError.valueError da.splits) := by
  simp [dpoPipeline, selectSplits, ht, hs, hn, Except.bind]

theorem dpoPipeline_keyError_train_plain (d : Dataset) (tok : Tokenizer) (da : DataArgs)
    (ht : da.splits.mem "train" = true) :
    dpoPipeline (Loaded.plain d) tok da = Except.error (PyError.keyError "train") := by
  simp [dpoPipeline, selectSplits, ht, Loaded.getSplit, Except.bind, Except.map]

theorem dpoPipeline_keyError_test_plain (d : Dataset) (tok : Tokenizer) (da : DataArgs)
    (ht : da.splits.mem "train" = false) (hs : da.splits.mem "test" = true) :
    dpoPipeline (Loaded.plain d) tok da = Except.error (PyError.keyError "test") := by
  simp [dpoPipeline, selectSplits, ht, hs, Loaded.getSplit, Except.bind, Except.map]

theorem dpoPipeline_train_only_dict (a b : Dataset) (tok : Tokenizer) (da : DataArgs)
    (ht : da.splits.mem "train" = true) (hs : da.splits.mem "test" = false)
    (hn : da.splits.mem "none" = false) :
    dpoPipeline (Loaded.dict a b) tok da = Except.error (PyError.keyError "test") := by
  have hne := eqStr_none_false_of_mem_none_false da.splits hn
  cases happly : (da.apply_chat_template != "none") <;>
    simp [dpoPipeline, selectSplits, mapStage, printStage, returnStage, ht, hs, hn, hne,
      happly, Loaded.getSplit, SplitVal.mapVal, SplitVal.lenVal,
      RawDatasets.getTrain, RawDatasets.getTest, Except.bind, Except.map]

theorem dpoPipeline_test_only_dict (a b : Dataset) (tok : Tokenizer) (da : DataArgs)
    (ht : da.splits.mem "train" = false) (hs : da.splits.mem "test" = true)
    (hn : da.splits.mem "none" = false) :
    dpoPipeline (Loaded.dict a b) tok da = Except.error (PyError.keyError "train") := by
  have hne := eqStr_none_false_of_mem_none_false da.splits hn
  cases happly : (da.apply_chat_template != "none") <;>
    simp [dpoPipeline, selectSplits, mapStage, printStage, returnStage, ht, hs, hn, hne,
      happly, Loaded.getSplit, SplitVal.mapVal, SplitVal.lenVal,
      RawDatasets.getTrain, RawDatasets.getTest, Except.bind, Except.map]

theorem dpoPipeline_none_attr (L : Loaded) (tok : Tokenizer) (da : DataArgs)
    (hn : da.splits.mem "none" = true)
    (ht : da.splits.mem "train" = false) (hs : da.splits.mem "test" = false)
    (hne : da.splits.eqStr "none" = false)
    (ha : (da.apply_chat_template != "none") = true) :
    dpoPipeline L tok da
      = Except.error (PyError.attributeError "NoneType object has no attribute map") := by
  cases L <;>
    simp [dpoPipeline, selectSplits, mapStage, printStage, returnStage, ht, hs, hn, hne,
      ha, Loaded.toVal, SplitVal.mapVal, SplitVal.lenVal,
      RawDatasets.getTrain, RawDatasets.getTest, Except.bind, Except.map]

theorem dpoPipeline_none_type (L : Loaded) (tok : Tokenizer) (da : DataArgs)
    (hn : da.splits.mem "none" = true)
    (ht : da.splits.mem "train" = false) (hs : da.splits.mem "test" = false)
    (hne : da.splits.eqStr "none" = false)
    (ha : (da.apply_chat_template != "none") = false) :
    dpoPipeline L tok da
      = Except.error (PyError.typeError "object of type NoneType has no len") := by
  cases L <;>
    simp [dpoPipeline, selectSplits, mapStage, printStage, returnStage, ht, hs, hn, hne,
      ha, Loaded.toVal, SplitVal.mapVal, SplitVal.lenVal,
      RawDatasets.getTrain, RawDatasets.getTest, Except.bind, Except.map]

theorem dpoPipeline_none_dict (a b : Dataset) (tok : Tokenizer) (da : DataArgs)
    (hn : da.splits.mem "none" = true) (hne : da.splits.eqStr "none" = false) :
    dpoPipeline (Loaded.dict a b) tok da
      = Except.error
          (if (da.apply_chat_template != "none") = true then
            PyError.attributeError "NoneType object has no attribute map"
          else PyError.typeError "object of type NoneType has no len") := by
  cases ht : da.splits.mem "train" <;> cases hs : da.splits.mem "test" <;>
    cases happly : (da.apply_chat_template != "none") <;>
      simp [dpoPipeline, selectSplits, mapStage, printStage, returnStage, ht, hs, hn, hne,
        happly, Loaded.getSplit, Loaded.toVal, SplitVal.mapVal, SplitVal.lenVal,
        RawDatasets.getTrain, RawDatasets.getTest, Except.bind, Except.map]

theorem renderedDataset_map (tokenizer : Tokenizer) (remove_system_message : Bool)
    (d : Dataset) :
    renderedDataset tokenizer remove_system_message d
      (d.map (preprocess tokenizer remove_system_message)) := by
  refine ⟨List.length_map d _, ?_⟩
  intro i h1 h2
  have hg : (d.map (preprocess tokenizer remove_system_message)).get ⟨i, h2⟩
      = preprocess tokenizer remove_system_message (d.get ⟨i, h1⟩) := by
    simp [List.getElem_map]
  rw [hg]
  exact ⟨rfl, rfl⟩

theorem renderedVal_toVal (tokenizer : Tokenizer) (remove_system_message : Bool)
    (L : Loaded) :
    renderedVal tokenizer remove_system_message L.toVal
      ((L.mapRows (preprocess tokenizer remove_system_message)).toVal) := by
  cases L with
  | plain d => exact renderedDataset_map tokenizer remove_system_message d
  | dict a b =>
    exact ⟨renderedDataset_map tokenizer remove_system_message a,
      renderedDataset_map tokenizer remove_system_message b⟩

theorem dpoPipeline_ok_cases (L : Loaded) (tok : Tokenizer) (da : DataArgs)
    (tr te : SplitVal) (hok : dpoPipeline L tok da = Except.ok (tr, te)) :
    (da.splits = Splits.str "none"
      ∧ tr = (if (da.apply_chat_template != "none") = true then
               (L.mapRows (preprocess tok da.remove_system_message)).toVal
             else L.toVal)
      ∧ te = SplitVal.none)
    ∨ (∃ a b, L = Loaded.dict a b
        ∧ da.splits.mem "train" = true ∧ da.splits.mem "test" = true
        ∧ da.splits.mem "none" = false
        ∧ tr = (if (da.apply_chat_template != "none") = true then
                 SplitVal.ds (a.map (preprocess tok da.remove_system_message))
               else SplitVal.ds a)
        ∧ te = (if (da.apply_chat_template != "none") = true then
                 SplitVal.ds (b.map (preprocess tok da.remove_system_message))
               else SplitVal.ds b)) := by
  by_cases hn : da.splits.mem "none" = true
  · by_cases hstr : da.splits = Splits.str "none"
    · left
      rw [dpoPipeline_splits_none L tok da hstr] at hok
      simp only [Except.ok.injEq, Prod.mk.injEq] at hok
      exact ⟨hstr, hok.1.symm, hok.2.symm⟩
    · exfalso
      have hne : da.splits.eqStr "none" = false := by
        cases hcase : da.splits.eqStr "none" with
        | false => rfl
        | true => exact absurd ((Splits.eqStr_none_iff da.splits).mp hcase) hstr
      by_cases ht : da.splits.mem "train" = true
      · cases hL : L with
        | plain d =>
          rw [hL, dpoPipeline_keyError_train_plain d tok da ht] at hok
          simp at hok
        | dict a b =>
          rw [hL, dpoPipeline_none_dict a b tok da hn hne] at hok
          simp at hok
      · have htf : da.splits.mem "train" = false := by simpa using ht
        by_cases hs : da.splits.mem "test" = true
        · cases hL : L with
          | plain d =>
            rw [hL, dpoPipeline_keyError_test_plain d tok da htf hs] at hok
            simp at hok
          | dict a b =>
            rw [hL, dpoPipeline_none_dict a b tok da hn hne] at hok
            simp at hok
        · have hsf : da.splits.mem "test" = false := by simpa using hs
          cases happly : (da.apply_chat_template != "none") with
          | true =>
            rw [dpoPipeline_none_attr L tok da hn htf hsf hne happly] at hok
            simp at hok
          | false =>
            rw [dpoPipeline_none_type L tok da hn htf hsf hne happly] at hok
            simp at hok
  · have hnf : da.splits.mem "none" = false := by simpa using hn
    by_cases ht : da.splits.mem "train" = true
    · by_cases hs : da.splits.mem "test" = true
      · cases hL : L with
        | plain d =>
          rw [hL, dpoPipeline_keyError_train_plain d tok da ht] at hok
          simp at hok
        | dict a b =>
          right
          rw [hL, dpoPipeline_both_dict a b tok da ht hs hnf] at hok
          refine ⟨a, b, rfl, ht, hs, hnf, ?_⟩
          cases happly : (da.apply_chat_template != "none") <;>
            simp [happly] at hok ⊢ <;>
            exact ⟨hok.1.symm, hok.2.symm⟩
      · exfalso
        have hsf : da.splits.mem "test" = false := by simpa using hs
        cases hL : L with
        | plain d =>
          rw [hL, dpoPipeline_keyError_train_plain d tok da ht] at hok
          simp at hok
        | dict a b =>
          rw [hL, dpoPipeline_train_only_dict a b tok da ht hsf hnf] at hok
          simp at hok
    · exfalso
      have htf : da.splits.mem "train" = false := by simpa using ht
      by_cases hs : da.splits.mem "test" = true
      · cases hL : L with
        | plain d =>
          rw [hL, dpoPipeline_keyError_test_plain d tok da htf hs] at hok
          simp at hok
        | dict a b =>
          rw [hL, dpoPipeline_test_only_dict a b tok da htf hs hnf] at hok
          simp at hok
      · have hsf : da.splits.mem "test" = false := by simpa using hs
        rw [dpoPipeline_valueError L tok da htf hsf hnf] at hok
        simp at hok

theorem dpoPipeline_valueError_cases (L : Loaded) (tok : Tokenizer) (da : DataArgs)
    (s2 : Splits)
    (herr : dpoPipeline L tok da = Except.error (PyError.valueError s2)) :
    s2 = da.splits ∧ da.splits.mem "train" = false ∧ da.splits.mem "test" = false
      ∧ da.splits.mem "none" = false := by
  by_cases hn : da.splits.mem "none" = true
  · exfalso
    by_cases hstr : da.splits = Splits.str "none"
    · rw [dpoPipeline_splits_none L tok da hstr] at herr
      simp at herr
    · have hne : da.splits.eqStr "none" = false := by
        cases hcase : da.splits.eqStr "none" with
        | false => rfl
        | true => exact absurd ((Splits.eqStr_none_iff da.splits).mp hcase) hstr
      by_cases ht : da.splits.mem "train" = true
      · cases hL : L with
        | plain d =>
          rw [hL, dpoPipeline_keyError_train_plain d tok da ht] at herr
          simp at herr
        | dict a b =>
          rw [hL, dpoPipeline_none_dict a b tok da hn hne] at herr
          cases happly : (da.apply_chat_template != "none") <;>
            simp [happly] at herr
      · have htf : da.splits.mem "train" = false := by simpa using ht
        by_cases hs : da.splits.mem "test" = true
        · cases hL : L with
          | plain d =>
            rw [hL, dpoPipeline_keyError_test_plain d tok da htf hs] at herr
            simp at herr
          | dict a b =>
            rw [hL, dpoPipeline_none_dict a b tok da hn hne] at herr
            cases happly : (da.apply_chat_template != "none") <;>
              simp [happly] at herr
        · have hsf : da.splits.mem "test" = false := by simpa using hs
          cases happly : (da.apply_chat_template != "none") with
          | true =>
            rw [dpoPipeline_none_attr L tok da hn htf hsf hne happly] at herr
            simp at herr
          | false =>
            rw [dpoPipeline_none_type L tok da hn htf hsf hne happly] at herr
            simp at herr
  · have hnf : da.splits.mem "none" = false := by simpa using hn
    by_cases ht : da.splits.mem "train" = true
    · exfalso
      by_cases hs : da.splits.mem "test" = true
      · cases hL : L with
        | plain d =>
          rw [hL, dpoPipeline_keyError_train_plain d tok da ht] at herr
          simp at herr
        | dict a b =>
          rw [hL, dpoPipeline_both_dict a b tok da ht hs hnf] at herr
          simp at herr
      · have hsf : da.splits.mem "test" = false := by simpa using hs
        cases hL : L with
        | plain d =>
          rw [hL, dpoPipeline_keyError_train_plain d tok da ht] at herr
          simp at herr
        | dict a b =>
          rw [hL, dpoPipeline_train_only_dict a b tok da ht hsf hnf] at herr
          simp at herr
    · have htf : da.splits.mem "train" = false := by simpa using ht
      by_cases hs : da.splits.mem "test" = true
      · exfalso
        cases hL : L with
        | plain d =>
          rw [hL, dpoPipeline_keyError_test_plain d tok da htf hs] at herr
          simp at herr
        | dict a b =>
          rw [hL, dpoPipeline_test_only_dict a b tok da htf hs hnf] at herr
          simp at herr
      · have hsf : da.splits.mem "test" = false := by simpa using hs
        rw [dpoPipeline_valueError L tok da htf hsf hnf] at herr
        simp only [Except.error.injEq, PyError.valueError.injEq] at herr
        exact ⟨herr.symm, htf, hsf, hnf⟩

/-- C2: `create_dpo_datasets` raises `ValueError` (before any preprocessing,
returning nothing) exactly when none of `"train"`, `"test"`, `"none"` is in
`data_args.splits`; otherwise, on a successful return without templating,
membership of `"train"`/`"test"` selects `dataset["train"]`/`dataset["test"]`
and membership of `"none"` returns the whole loaded dataset as train with
`None` as test. -/
theorem create_dpo_datasets_split_selection
    (load_from_disk load_dataset : String → Loaded) (tokenizer : Tokenizer)
    (data_args : DataArgs) :
    ((data_args.splits.mem "train" = false ∧ data_args.splits.mem "test" = false
        ∧ data_args.splits.mem "none" = false) ↔
      create_dpo_datasets load_from_disk load_dataset tokenizer data_args
        = Except.error (PyError.valueError data_args.splits))
    ∧ (∀ tr te,
        create_dpo_datasets load_from_disk load_dataset tokenizer data_args
          = Except.ok (tr, te) →
        data_args.apply_chat_template = "none" →
        (data_args.splits.mem "train" = true →
          ∃ a b,
            (if data_args.is_local_data then load_from_disk else load_dataset)
                data_args.dataset_name = Loaded.dict a b
            ∧ tr = SplitVal.ds a)
        ∧ (data_args.splits.mem "test" = true →
          ∃ a b,
            (if data_args.is_local_data then load_from_disk else load_dataset)
                data_args.dataset_name = Loaded.dict a b
            ∧ te = SplitVal.ds b)
        ∧ (data_args.splits.mem "none" = true →
          tr = ((if data_args.is_local_data then load_from_disk else load_dataset)
              data_args.dataset_name).toVal
          ∧ te = SplitVal.none)) := by
  have hcreate : create_dpo_datasets load_from_disk load_dataset tokenizer data_args
      = dpoPipeline ((if data_args.is_local_data then load_from_disk else load_dataset)
          data_args.dataset_name) tokenizer data_args := rfl
  constructor
  · constructor
    · rintro ⟨ht, hs, hn⟩
      rw [hcreate]
      exact dpoPipeline_valueError _ _ _ ht hs hn
    · intro herr
      rw [hcreate] at herr
      obtain ⟨-, ht, hs, hn⟩ := dpoPipeline_valueError_cases _ _ _ _ herr
      exact ⟨ht, hs, hn⟩
  · intro tr te hok happ
    rw [hcreate] at hok
    have ha : (data_args.apply_chat_template != "none") = false := by
      rw [happ]
      rfl
    rcases dpoPipeline_ok_cases _ _ _ _ _ hok with
      ⟨hstr, htr, hte⟩ | ⟨a, b, hL, ht, hs, hn, htr, hte⟩
    · refine ⟨?_, ?_, ?_⟩
      · intro htm
        rw [hstr] at htm
        exact absurd htm (by decide)
      · intro hsm
        rw [hstr] at hsm
        exact absurd hsm (by decide)
      · intro _
        simp only [ha] at htr
        simp at htr
        exact ⟨htr, hte⟩
    · refine ⟨?_, ?_, ?_⟩
      · intro _
        refine ⟨a, b, hL, ?_⟩
        simp [ha] at htr
        exact htr
      · intro _
        refine ⟨a, b, hL, ?_⟩
        simp [ha] at hte
        exact hte
      · intro hnm
        exact absurd hnm (by simp [hn])

/-- Witness for C2: a splits value matching nothing raises `ValueError`. -/
theorem create_dpo_datasets_split_selection_witness :
    create_dpo_datasets wLoadDict wLoadDict wTok wArgsBad
      = Except.error (PyError.valueError wArgsBad.splits) :=
  (create_dpo_datasets_split_selection wLoadDict wLoadDict wTok wArgsBad).1.mp
    ⟨by decide, by decide, by decide⟩

/-- C1: on every successful return, when `apply_chat_template` is not
`"none"` the returned splits are the selected splits with every row's
`chosen`/`rejected` replaced by the chat-template rendering of the original
conversation (with the optional system strip), and when it is `"none"` the
splits are returned exactly as loaded. -/
theorem create_dpo_datasets_chat_template_rows
    (load_from_disk load_dataset : String → Loaded) (tokenizer : Tokenizer)
    (data_args : DataArgs) (tr te : SplitVal)
    (hok : create_dpo_datasets load_from_disk load_dataset tokenizer data_args
      = Except.ok (tr, te)) :
    ((data_args.apply_chat_template != "none") = true →
      (data_args.splits = Splits.str "none"
        ∧ renderedVal tokenizer data_args.remove_system_message
            ((if data_args.is_local_data then load_from_disk else load_dataset)
                data_args.dataset_name).toVal tr
        ∧ te = SplitVal.none)
      ∨ (∃ a b,
          (if data_args.is_local_data then load_from_disk else load_dataset)
              data_args.dataset_name = Loaded.dict a b
          ∧ renderedVal tokenizer data_args.remove_system_message (SplitVal.ds a) tr
          ∧ renderedVal tokenizer data_args.remove_system_message (SplitVal.ds b) te))
    ∧ ((data_args.apply_chat_template != "none") = false →
      (data_args.splits = Splits.str "none"
        ∧ tr = ((if data_args.is_local_data then load_from_disk else load_dataset)
            data_args.dataset_name).toVal
        ∧ te = SplitVal.none)
      ∨ (∃ a b,
          (if data_args.is_local_data then load_from_disk else load_dataset)
              data_args.dataset_name = Loaded.dict a b
          ∧ tr = SplitVal.ds a ∧ te = SplitVal.ds b)) := by
  have hcreate : create_dpo_datasets load_from_disk load_dataset tokenizer data_args
      = dpoPipeline ((if data_args.is_local_data then load_from_disk else load_dataset)
          data_args.dataset_name) tokenizer data_args := rfl
  rw [hcreate] at hok
  rcases dpoPipeline_ok_cases _ _ _ _ _ hok with
    ⟨hstr, htr, hte⟩ | ⟨a, b, hL, ht, hs, hn, htr, hte⟩
  · constructor
    · intro ha
      left
      refine ⟨hstr, ?_, hte⟩
      simp only [ha, if_true] at htr
      rw [htr]
      exact renderedVal_toVal tokenizer data_args.remove_system_message _
    · intro ha
      left
      refine ⟨hstr, ?_, hte⟩
      simp [ha] at htr
      exact htr
  · constructor
    · intro ha
      right
      refine ⟨a, b, hL, ?_, ?_⟩
      · simp only [ha, if_true] at htr
        rw [htr]
        exact renderedDataset_map tokenizer data_args.remove_system_message a
      · simp only [ha, if_true] at hte
        rw [hte]
        exact renderedDataset_map tokenizer data_args.remove_system_message b
    · intro ha
      right
      refine ⟨a, b, hL, ?_, ?_⟩
      · simp [ha] at htr
        exact htr
      · simp [ha] at hte
        exact hte

/-- Witness for C1: both splits of a dict-shaped dataset are rendered
row by row under chatml templating. -/
theorem create_dpo_datasets_chat_template_rows_witness :
    (wArgsBoth.splits = Splits.str "none"
      ∧ renderedVal wTok wArgsBoth.remove_system_message
          ((if wArgsBoth.is_local_data then wLoadDict else wLoadDict)
              wArgsBoth.dataset_name).toVal
          (SplitVal.ds ([wRow].map (preprocess wTok wArgsBoth.remove_system_message)))
      ∧ SplitVal.ds ([wRow2].map (preprocess wTok wArgsBoth.remove_system_message))
          = SplitVal.none)
    ∨ (∃ a b,
        (if wArgsBoth.is_local_data then wLoadDict else wLoadDict)
            wArgsBoth.dataset_name = Loaded.dict a b
        ∧ renderedVal wTok wArgsBoth.remove_system_message (SplitVal.ds a)
            (SplitVal.ds ([wRow].map (preprocess wTok wArgsBoth.remove_system_message)))
        ∧ renderedVal wTok wArgsBoth.remove_system_message (SplitVal.ds b)
            (SplitVal.ds ([wRow2].map (preprocess wTok wArgsBoth.remove_system_message)))) :=
  (create_dpo_datasets_chat_template_rows wLoadDict wLoadDict wTok wArgsBoth
    (SplitVal.ds ([wRow].map (preprocess wTok wArgsBoth.remove_system_message)))
    (SplitVal.ds ([wRow2].map (preprocess wTok wArgsBoth.remove_system_message)))
    rfl).1 rfl

/-- C9: the guard asymmetry between `"none" in splits` (selection) and
`splits != "none"` (test-split mapping and size print).  Only when `splits`
is exactly the string `"none"` does the function return successfully with
the whole loaded dataset as train (when no template is applied; the
template-mapped dataset otherwise) and `None` as test, never mapping or
measuring the test value; for a different splits value containing `"none"`
(such as the list `["none"]`) with `apply_chat_template` not `"none"`, the
`.map` call is made on the `None` test entry and the function raises
`AttributeError`. -/
theorem create_dpo_datasets_none_guard
    (load_from_disk load_dataset : String → Loaded) (tokenizer : Tokenizer)
    (data_args : DataArgs) :
    (data_args.splits = Splits.str "none" →
      ∃ tr, create_dpo_datasets load_from_disk load_dataset tokenizer data_args
          = Except.ok (tr, SplitVal.none)
        ∧ ((data_args.apply_chat_template != "none") = false →
            tr = ((if data_args.is_local_data then load_from_disk else load_dataset)
                data_args.dataset_name).toVal))
    ∧ (data_args.splits.mem "none" = true → data_args.splits.mem "train" = false →
       data_args.splits.mem "test" = false → data_args.splits.eqStr "none" = false →
       (data_args.apply_chat_template != "none") = true →
      create_dpo_datasets load_from_disk load_dataset tokenizer data_args
        = Except.error (PyError.attributeError "NoneType object has no attribute map"))
    ∧ (∀ a b,
        (if data_args.is_local_data then load_from_disk else load_dataset)
            data_args.dataset_name = Loaded.dict a b →
        data_args.splits.mem "none" = true → data_args.splits.eqStr "none" = false →
        (data_args.apply_chat_template != "none") = true →
        create_dpo_datasets load_from_disk load_dataset tokenizer data_args
          = Except.error (PyError.attributeError "NoneType object has no attribute map")) := by
  have hcreate : create_dpo_datasets load_from_disk load_dataset tokenizer data_args
      = dpoPipeline ((if data_args.is_local_data then load_from_disk else load_dataset)
          data_args.dataset_name) tokenizer data_args := rfl
  refine ⟨?_, ?_, ?_⟩
  · intro hstr
    rw [hcreate, dpoPipeline_splits_none _ _ _ hstr]
    refine ⟨_, rfl, ?_⟩
    intro ha
    simp [ha]
  · intro hn ht hs hne ha
    rw [hcreate]
    exact dpoPipeline_none_attr _ _ _ hn ht hs hne ha
  · intro a b hL hn hne ha
    rw [hcreate, hL, dpoPipeline_none_dict a b tokenizer data_args hn hne, ha]
    simp

/-- Witness for C9: the list `["none"]` with chatml templating raises the
`AttributeError` from mapping `None`. -/
theorem create_dpo_datasets_none_guard_witness :
    create_dpo_datasets wLoadDict wLoadDict wTok wArgsListNone
      = Except.error (PyError.attributeError "NoneType object has no attribute map") :=
  (create_dpo_datasets_none_guard wLoadDict wLoadDict wTok wArgsListNone).2.1
    (by decide) (by decide) (by decide) (by decide) rfl
